import Mathlib

/-!
Shallow embedding of `src/x402-facilitator/src/server.ts` (an Express payment
facilitator) and proofs about its `/verify`, `/settle` and `/supported`
handlers.

Modelling conventions:
* JavaScript numbers reached by `parseFloat` are modelled by `JSNum`
  (NaN, the two infinities, or the exact value `mant * 10 ^ exp` of the
  parsed decimal literal, kept as an integer pair).  Float64 rounding is not
  modelled; for the amount classification used by the server
  (`x <= 0 || isNaN(x)`) it only differs from JS at exponents beyond the
  double range (subnormal underflow), which no claim depends on.
* The external libraries (`Transaction.from`, `VersionedTransaction.deserialize`)
  and the Kora relay client (`signTransaction`, `signAndSendTransaction`,
  `getPayerSigner`) are oracles supplied in `KoraDeps`: a `Bool` telling
  whether a parse attempt succeeds, and `Except String _` for the relay calls
  (`.error msg` models a thrown error carrying `error.message`).
  `Buffer.from(base64)` never throws in JS, so the two parse oracles consume
  the base64 text directly.
* Each handler returns its HTTP status, its JSON body (absent JSON keys are
  `none`), and a trace of the pipeline steps it executed, in source order;
  the relay steps appear in the trace exactly when the corresponding relay
  method is invoked.
-/

/-- Result classification of JavaScript `parseFloat`: NaN, ±Infinity, or a
finite value kept exact as `mant * 10 ^ exp` (the sign lives in `mant`;
`exp < 0` for fractional literals). -/
inductive JSNum where
  | nan : JSNum
  | posInf : JSNum
  | negInf : JSNum
  | finite : ℤ → ℤ → JSNum
deriving DecidableEq

/-- The whitespace characters skipped by `parseFloat` (ASCII subset). -/
def jsIsWS (c : Char) : Bool :=
  c == ' ' || c == '\t' || c == '\n' || c == '\r'

/-- Longest digit run at the head of a character list, with the remainder. -/
def takeDigits : List Char → List Char × List Char
  | [] => ([], [])
  | c :: cs =>
    if c.isDigit then
      let p := takeDigits cs
      (c :: p.1, p.2)
    else ([], c :: cs)

/-- Numeric value of a digit run. -/
def digitsVal (ds : List Char) : ℕ :=
  ds.foldl (fun a c => 10 * a + (c.toNat - 48)) 0

/-- Exponent part of a JS decimal literal (`e`/`E`, optional sign, digits);
an incomplete exponent contributes nothing, as in `parseFloat("1e")`. -/
def parseExp : List Char → ℤ
  | [] => 0
  | c :: r =>
    if c == 'e' || c == 'E' then
      let p : ℤ × List Char :=
        match r with
        | '+' :: t => (1, t)
        | '-' :: t => (-1, t)
        | t => (1, t)
      let ds := (takeDigits p.2).1
      if ds = [] then 0 else p.1 * (digitsVal ds : ℤ)
    else 0

/-- Unsigned decimal prefix `digits [. digits] [exp]`; `none` when not even
one digit is present, otherwise the exact value as mantissa and power of
ten: `digits.fracDigits × 10 ^ (exponent - fracDigits.length)`. -/
def parseDec (cs : List Char) : Option (ℕ × ℤ) :=
  let ip := takeDigits cs
  let fp : List Char × List Char :=
    match ip.2 with
    | '.' :: r => takeDigits r
    | r => ([], r)
  if ip.1 = [] ∧ fp.1 = [] then none
  else some (digitsVal (ip.1 ++ fp.1), parseExp fp.2 - (fp.1.length : ℤ))

/-- JavaScript `parseFloat`: skip whitespace, optional sign, then either the
`Infinity` keyword or the longest decimal-literal prefix; NaN when no prefix
parses. -/
def parseFloatJS (s : String) : JSNum :=
  let cs := s.toList.dropWhile jsIsWS
  let sp : Bool × List Char :=
    match cs with
    | '+' :: r => (true, r)
    | '-' :: r => (false, r)
    | r => (true, r)
  if sp.2.take 8 = "Infinity".toList then
    if sp.1 then JSNum.posInf else JSNum.negInf
  else
    match parseDec sp.2 with
    | none => JSNum.nan
    | some me => JSNum.finite (if sp.1 then (me.1 : ℤ) else -(me.1 : ℤ)) me.2

/-- JS comparison `x <= 0` (false on NaN): the sign of `mant * 10 ^ exp` is
the sign of `mant`. -/
def jsLeZero : JSNum → Bool
  | JSNum.nan => false
  | JSNum.posInf => false
  | JSNum.negInf => true
  | JSNum.finite m _ => decide (m ≤ 0)

/-- JS `isNaN`. -/
def jsIsNaN : JSNum → Bool
  | JSNum.nan => true
  | _ => false

/-- JS string falsiness for an optional string field (`undefined`, `null`
and `""` are falsy). -/
def jsFalsyStr : Option String → Bool
  | none => true
  | some s => s.isEmpty

/-- JS `env.X || default`: the default is used when the variable is unset or
empty. -/
def jsOrDefault (v : Option String) (d : String) : String :=
  match v with
  | some s => if s.isEmpty then d else s
  | none => d

/-- Replace the first occurrence of `pat` in a character list, as JS
`String.prototype.replace` does with a string pattern. -/
def replaceFirstAux (pat repl : List Char) : List Char → List Char
  | [] => []
  | c :: cs =>
    if pat.isPrefixOf (c :: cs) then repl ++ (c :: cs).drop pat.length
    else c :: replaceFirstAux pat repl cs

/-- JS `s.replace(pat, repl)` with a plain-string pattern: first occurrence
only; `s` unchanged when `pat` does not occur. -/
def jsReplaceFirst (s pat repl : String) : String :=
  ⟨replaceFirstAux pat.toList repl.toList s.toList⟩

/-- Startup configuration read from the environment (server.ts lines 12-18). -/
structure Config where
  NETWORK : String
  MOCK_MODE : Bool
  USDC_MINT : String
  KORA_SIGNER_ADDRESS : Option String
deriving DecidableEq

/-- External behaviour of the transaction-parsing library and the Kora relay
client, supplied as oracles. -/
structure KoraDeps where
  legacyFrom : String → Bool
  versionedDeserialize : String → Bool
  signTransaction : String → Except String Unit
  signAndSendTransaction : String → Except String String
  getPayerSigner : Except String String

/-- `X402PaymentPayload.metadata` (server.ts lines 30-34); an absent `amount`
behaves like a string that `parseFloat` maps to NaN, so `String` fields
suffice. -/
structure PaymentMetadata where
  endpoint : String
  amount : String
  recipient : String
deriving DecidableEq

/-- `X402PaymentPayload` (server.ts lines 26-35). -/
structure X402PaymentPayload where
  version : String
  network : String
  transaction : Option String
  metadata : Option PaymentMetadata
deriving DecidableEq

/-- Pipeline steps of the `/verify` handler, in the order they appear in the
source: transaction check (48), metadata check (55), decode attempt (63-77),
amount check (80-86), relay `signTransaction` call (90). -/
inductive VStep where
  | checkTx : VStep
  | checkMeta : VStep
  | decode : VStep
  | checkAmount : VStep
  | relaySign : VStep
deriving DecidableEq

/-- JSON body of a `/verify` response; `none` models an absent key
(`undefined` values are dropped by `res.json`). -/
structure VerifyBody where
  isValid : Bool
  error : Option String := none
  details : Option String := none
  network : Option String := none
  amount : Option String := none
  recipient : Option String := none
  parsed : Option Bool := none
deriving DecidableEq

/-- Status, body and executed pipeline steps of one `/verify` request. -/
structure VerifyResult where
  status : Nat
  body : VerifyBody
  trace : List VStep
deriving DecidableEq

/-- The decode attempt of server.ts lines 67-77: try `Transaction.from`,
on failure try `VersionedTransaction.deserialize`, on failure leave
`parsedOk` false; every parse failure is caught. -/
def sniffParsed (legacy versioned : String → Bool) (tx : String) : Bool :=
  if legacy tx then true
  else if versioned tx then true
  else false

/-- The amount guard of server.ts line 81:
`expectedAmount <= 0 || isNaN(expectedAmount)`. -/
def amountRejected (amount : String) : Bool :=
  jsLeZero (parseFloatJS amount) || jsIsNaN (parseFloatJS amount)

/-- The `/verify` handler (server.ts lines 41-117), step for step. -/
def verifyHandler (cfg : Config) (d : KoraDeps) (p : X402PaymentPayload) :
    VerifyResult :=
  if jsFalsyStr p.transaction then
    ⟨400, { isValid := false, error := some "Missing transaction data" },
      [VStep.checkTx]⟩
  else
    match p.metadata with
    | none =>
      ⟨400, { isValid := false, error := some "Missing payment metadata" },
        [VStep.checkTx, VStep.checkMeta]⟩
    | some md =>
      let tx := p.transaction.getD ""
      let parsedOk := sniffParsed d.legacyFrom d.versionedDeserialize tx
      if amountRejected md.amount then
        ⟨400, { isValid := false, error := some "Invalid payment amount" },
          [VStep.checkTx, VStep.checkMeta, VStep.decode, VStep.checkAmount]⟩
      else
        match d.signTransaction tx with
        | Except.error msg =>
          ⟨200, { isValid := false, error := some "Transaction validation failed",
                  details := if cfg.MOCK_MODE then some msg else none },
            [VStep.checkTx, VStep.checkMeta, VStep.decode, VStep.checkAmount,
              VStep.relaySign]⟩
        | Except.ok _ =>
          ⟨200, { isValid := true, network := some p.network,
                  amount := some md.amount, recipient := some md.recipient,
                  parsed := some parsedOk },
            [VStep.checkTx, VStep.checkMeta, VStep.decode, VStep.checkAmount,
              VStep.relaySign]⟩

/-- Pipeline steps of the `/settle` handler: transaction check (129), relay
`signAndSendTransaction` call (137). -/
inductive SStep where
  | checkTx : SStep
  | relaySend : SStep
deriving DecidableEq

/-- JSON body of a `/settle` response. -/
structure SettleBody where
  success : Bool
  error : Option String := none
  signature : Option String := none
  network : Option String := none
  explorerUrl : Option String := none
deriving DecidableEq

/-- Status, body and executed pipeline steps of one `/settle` request. -/
structure SettleResult where
  status : Nat
  body : SettleBody
  trace : List SStep
deriving DecidableEq

/-- The explorer link built on server.ts line 145. -/
def explorerUrlOf (cfg : Config) (sig : String) : String :=
  "https://explorer.solana.com/tx/" ++ sig ++ "?cluster=" ++
    jsReplaceFirst cfg.NETWORK "solana-" ""

/-- The `/settle` handler (server.ts lines 123-155): a thrown relay error is
caught by the outer catch and becomes a 500 with the error message. -/
def settleHandler (cfg : Config) (d : KoraDeps) (p : X402PaymentPayload) :
    SettleResult :=
  if jsFalsyStr p.transaction then
    ⟨400, { success := false, error := some "Missing transaction data" },
      [SStep.checkTx]⟩
  else
    match d.signAndSendTransaction (p.transaction.getD "") with
    | Except.error msg =>
      ⟨500, { success := false, error := some msg },
        [SStep.checkTx, SStep.relaySend]⟩
    | Except.ok sig =>
      ⟨200, { success := true, signature := some sig,
              network := some p.network,
              explorerUrl := some (explorerUrlOf cfg sig) },
        [SStep.checkTx, SStep.relaySend]⟩

/-- One advertised token (server.ts lines 173-177). -/
structure TokenInfo where
  mint : String
  symbol : String
  decimals : Nat
deriving DecidableEq

/-- JSON body of a `/supported` response (server.ts lines 167-183). -/
structure SupportedBody where
  version : String
  network : String
  paymentScheme : String
  feePayer : String
  tokens : List TokenInfo
  endpointVerify : String
  endpointSettle : String
deriving DecidableEq

/-- Status, body, and whether the relay fee-payer query was issued, for one
`/supported` request. -/
structure SupportedResult where
  status : Nat
  body : SupportedBody
  relayQueried : Bool
deriving DecidableEq

/-- The `/supported` handler (server.ts lines 161-190): in mock mode the fee
payer comes from configuration, otherwise from `getPayerSigner` with a
`.catch` fallback to the sentinel. -/
def supportedHandler (cfg : Config) (d : KoraDeps) : SupportedResult :=
  let feePayer :=
    if cfg.MOCK_MODE then
      jsOrDefault cfg.KORA_SIGNER_ADDRESS "MockPayerAddress11111111111111111111111111"
    else
      match d.getPayerSigner with
      | Except.ok a => a
      | Except.error _ => "UnknownPayerAddress"
  ⟨200,
    { version := "0.0.1", network := cfg.NETWORK, paymentScheme := "exact",
      feePayer := feePayer,
      tokens := [⟨cfg.USDC_MINT, "USDC", 6⟩],
      endpointVerify := "/verify", endpointSettle := "/settle" },
    !cfg.MOCK_MODE⟩

/-- Position of the first occurrence of a step in a trace. -/
def firstAt (s : VStep) : List VStep → Option Nat
  | [] => none
  | t :: ts => if t = s then some 0 else (firstAt s ts).map (· + 1)

/-- `occursBefore a b tr`: both steps occur and the first occurrence of `a`
is strictly before the first occurrence of `b`. -/
def occursBefore (a b : VStep) (tr : List VStep) : Bool :=
  match firstAt a tr, firstAt b tr with
  | some i, some j => decide (i < j)
  | _, _ => false

/-- The spec's reading of the explorer-link cluster: the network name with
the fixed leading `solana-` removed when it is a true prefix, otherwise the
network name unchanged.  (Refinement target for C7; the source instead
replaces the first occurrence anywhere.) -/
def clusterPerSpec (network : String) : String :=
  if "solana-".toList.isPrefixOf network.toList then ⟨network.toList.drop 7⟩
  else network

/-- Live-mode configuration used by concrete instances. -/
def cfgDevnet : Config := ⟨"solana-devnet", false, "MINT111", none⟩

/-- Mock-mode configuration used by concrete instances. -/
def cfgMock : Config := ⟨"solana-devnet", true, "MINT111", none⟩

/-- Configuration whose network contains `solana-` other than as a prefix. -/
def cfgOdd : Config := ⟨"testnet-solana-devnet", false, "MINT111", none⟩

/-- Oracle where neither local parse succeeds and every relay call succeeds. -/
def depsAccept : KoraDeps :=
  ⟨fun _ => false, fun _ => false, fun _ => Except.ok (),
   fun _ => Except.ok "SIG", Except.ok "PAYER"⟩

/-- Oracle where the legacy parse succeeds and every relay call fails. -/
def depsReject : KoraDeps :=
  ⟨fun _ => true, fun _ => false, fun _ => Except.error "bad tx",
   fun _ => Except.error "send failed", Except.error "down"⟩

/-- Oracle where the legacy parse succeeds and every relay call succeeds. -/
def depsParseAccept : KoraDeps :=
  ⟨fun _ => true, fun _ => false, fun _ => Except.ok (),
   fun _ => Except.ok "SIG", Except.ok "PAYER"⟩

/-- Well-formed payload with a positive decimal amount. -/
def payloadGood : X402PaymentPayload :=
  ⟨"1", "solana-devnet", some "AAAA", some ⟨"/x", "1.5", "Rcp1"⟩⟩

/-- Payload whose declared amount is the string `Infinity`. -/
def payloadInf : X402PaymentPayload :=
  ⟨"1", "solana-devnet", some "AAAA", some ⟨"/x", "Infinity", "Rcp1"⟩⟩

/-- Payload whose declared amount is negative. -/
def payloadNeg : X402PaymentPayload :=
  ⟨"1", "solana-devnet", some "AAAA", some ⟨"/x", "-1", "Rcp1"⟩⟩

/-- Payload with an empty transaction field. -/
def payloadEmptyTx : X402PaymentPayload :=
  ⟨"1", "solana-devnet", some "", some ⟨"/x", "1.5", "Rcp1"⟩⟩

/-- Payload without metadata. -/
def payloadNoMeta : X402PaymentPayload :=
  ⟨"1", "solana-devnet", some "AAAA", none⟩

/-- Payload whose network differs from the configured one. -/
def payloadMainnet : X402PaymentPayload :=
  ⟨"1", "solana-mainnet", some "AAAA", some ⟨"/x", "1.5", "Rcp1"⟩⟩

/-- C1 counterexample: on a fully well-formed request the decode attempt
(format sniffing) runs strictly before the amount check, so the three
structural checks do not all complete before the Transaction Decoder runs;
the pipeline is TxChecked → MetaChecked → FormatSniffed → AmountChecked →
RelayChecked, not the claimed StructurallyValidated → FormatSniffed. -/
theorem C1_counterexample :
    VStep.decode ∈ (verifyHandler cfgDevnet depsAccept payloadGood).trace ∧
    VStep.checkAmount ∈ (verifyHandler cfgDevnet depsAccept payloadGood).trace ∧
    occursBefore VStep.checkAmount VStep.decode
      (verifyHandler cfgDevnet depsAccept payloadGood).trace = false ∧
    occursBefore VStep.decode VStep.checkAmount
      (verifyHandler cfgDevnet depsAccept payloadGood).trace = true := by
  decide

/-- C1 (amended): for every /verify request the three Payment Validator
checks run in their stated order, stopping at the first failure, but only
the transaction and metadata checks precede the Transaction Decoder; the
amount check runs after format sniffing and before the relay call, giving
the pipeline TxChecked → MetaChecked → FormatSniffed → AmountChecked →
RelayChecked. -/
theorem C1_verify_pipeline (cfg : Config) (d : KoraDeps)
    (p : X402PaymentPayload) :
    (verifyHandler cfg d p).trace =
      if jsFalsyStr p.transaction then [VStep.checkTx]
      else
        match p.metadata with
        | none => [VStep.checkTx, VStep.checkMeta]
        | some md =>
          if amountRejected md.amount then
            [VStep.checkTx, VStep.checkMeta, VStep.decode, VStep.checkAmount]
          else
            [VStep.checkTx, VStep.checkMeta, VStep.decode, VStep.checkAmount,
              VStep.relaySign] := by
  unfold verifyHandler
  cases h1 : jsFalsyStr p.transaction
  · simp only [Bool.false_eq_true, if_false]
    cases h2 : p.metadata
    · simp
    · rename_i md
      cases h3 : amountRejected md.amount
      · cases d.signTransaction (p.transaction.getD "") <;> simp [h3]
      · simp [h3]
  · simp

/-- C2 counterexample: with a non-empty transaction, metadata present and
`amount = "Infinity"` (which parses to a non-finite number), the handler
does not answer `Invalid payment amount`: it calls the relay and returns
`isValid = true`, because the guard `x <= 0 || isNaN(x)` lets `Infinity`
through. -/
theorem C2_counterexample :
    parseFloatJS "Infinity" = JSNum.posInf ∧
    (verifyHandler cfgDevnet depsAccept payloadInf).body.isValid = true ∧
    (verifyHandler cfgDevnet depsAccept payloadInf).body.error = none ∧
    VStep.relaySign ∈ (verifyHandler cfgDevnet depsAccept payloadInf).trace := by
  decide

/-- C2 (amended): for every /verify payload with a non-empty transaction and
metadata present, if `metadata.amount` parses (JS `parseFloat`) to NaN or to
a value `<= 0` — i.e. it is non-numeric or non-positive — the handler
returns the 400 client-error response `{isValid:false, error:"Invalid
payment amount"}` and no relay call occurs; a positively infinite amount
such as `"Infinity"` is not rejected by this guard. -/
theorem C2_invalid_amount (cfg : Config) (d : KoraDeps)
    (p : X402PaymentPayload) (md : PaymentMetadata)
    (h1 : jsFalsyStr p.transaction = false) (h2 : p.metadata = some md)
    (h3 : jsIsNaN (parseFloatJS md.amount) = true ∨
          jsLeZero (parseFloatJS md.amount) = true) :
    verifyHandler cfg d p =
      ⟨400, { isValid := false, error := some "Invalid payment amount" },
        [VStep.checkTx, VStep.checkMeta, VStep.decode, VStep.checkAmount]⟩ ∧
    VStep.relaySign ∉ (verifyHandler cfg d p).trace := by
  have h3' : amountRejected md.amount = true := by
    rcases h3 with h | h <;> simp [amountRejected, h]
  have he : verifyHandler cfg d p =
      ⟨400, { isValid := false, error := some "Invalid payment amount" },
        [VStep.checkTx, VStep.checkMeta, VStep.decode, VStep.checkAmount]⟩ := by
    simp [verifyHandler, h1, h2, h3']
  refine ⟨he, ?_⟩
  rw [he]
  decide

/-- C2 witness: the amended theorem applied to a payload whose declared
amount is `"-1"`. -/
theorem C2_invalid_amount_witness :
    verifyHandler cfgDevnet depsAccept payloadNeg =
      ⟨400, { isValid := false, error := some "Invalid payment amount" },
        [VStep.checkTx, VStep.checkMeta, VStep.decode, VStep.checkAmount]⟩ ∧
    VStep.relaySign ∉ (verifyHandler cfgDevnet depsAccept payloadNeg).trace :=
  C2_invalid_amount cfgDevnet depsAccept payloadNeg ⟨"/x", "-1", "Rcp1"⟩
    (by decide) rfl (Or.inr (by decide))

/-- C3: the Transaction Decoder is the total function `sniffParsed` (parse
failures of the two oracles are folded into `false`, never raised): a
successful legacy parse decides the outcome and makes the versioned parser
irrelevant (it is not consulted), a failed legacy parse defers to the
versioned parser, and an unrecognized transaction does not stop the
request — the relay call happens for every structurally valid payload,
whatever the two parse oracles answered. -/
theorem C3_decoder_total_and_ordered :
    (∀ (L V : String → Bool) (tx : String), L tx = true →
        sniffParsed L V tx = true) ∧
    (∀ (L V W : String → Bool) (tx : String), L tx = true →
        sniffParsed L V tx = sniffParsed L W tx) ∧
    (∀ (L V : String → Bool) (tx : String), L tx = false →
        sniffParsed L V tx = V tx) ∧
    (∀ (cfg : Config) (d : KoraDeps) (p : X402PaymentPayload)
        (md : PaymentMetadata),
        jsFalsyStr p.transaction = false → p.metadata = some md →
        amountRejected md.amount = false →
        VStep.relaySign ∈ (verifyHandler cfg d p).trace) := by
  refine ⟨?_, ?_, ?_, ?_⟩
  · intro L V tx h
    simp [sniffParsed, h]
  · intro L V W tx h
    simp [sniffParsed, h]
  · intro L V tx h
    cases hV : V tx <;> simp [sniffParsed, h, hV]
  · intro cfg d p md h1 h2 h3
    cases h4 : d.signTransaction (p.transaction.getD "") <;>
      simp [verifyHandler, h1, h2, h3, h4]

/-- C3 witness: the ordering facts at concrete oracles and the relay call on
a concrete structurally valid request whose transaction neither parser
recognizes. -/
theorem C3_decoder_witness :
    sniffParsed (fun _ => true) (fun _ => false) "AAAA" = true ∧
    sniffParsed (fun _ => false) (fun _ => false) "AAAA" = false ∧
    VStep.relaySign ∈ (verifyHandler cfgDevnet depsAccept payloadGood).trace :=
  ⟨C3_decoder_total_and_ordered.1 (fun _ => true) (fun _ => false) "AAAA" rfl,
   by
    have h := C3_decoder_total_and_ordered.2.2.1
      (fun _ => false) (fun _ => false) "AAAA" rfl
    simpa using h,
   C3_decoder_total_and_ordered.2.2.2 cfgDevnet depsAccept payloadGood
     ⟨"/x", "1.5", "Rcp1"⟩ (by decide) rfl (by decide)⟩

/-- C4: for every /verify request that reaches the relay call, a relay error
yields the well-formed negative response whose `error` field is the generic
`"Transaction validation failed"`; the underlying relay message appears in
`details` exactly when mock mode is enabled, and the response status is the
express default 200. -/
theorem C4_relay_error_response (cfg : Config) (d : KoraDeps)
    (p : X402PaymentPayload) (md : PaymentMetadata) (msg : String)
    (h1 : jsFalsyStr p.transaction = false) (h2 : p.metadata = some md)
    (h3 : amountRejected md.amount = false)
    (h4 : d.signTransaction (p.transaction.getD "") = Except.error msg) :
    verifyHandler cfg d p =
      ⟨200, { isValid := false, error := some "Transaction validation failed",
              details := if cfg.MOCK_MODE then some msg else none },
        [VStep.checkTx, VStep.checkMeta, VStep.decode, VStep.checkAmount,
          VStep.relaySign]⟩ := by
  simp [verifyHandler, h1, h2, h3, h4]

/-- C4 witness: the theorem applied in mock mode (detail message included)
and in live mode (detail message absent). -/
theorem C4_relay_error_witness :
    verifyHandler cfgMock depsReject payloadGood =
      ⟨200, { isValid := false, error := some "Transaction validation failed",
              details := some "bad tx" },
        [VStep.checkTx, VStep.checkMeta, VStep.decode, VStep.checkAmount,
          VStep.relaySign]⟩ ∧
    verifyHandler cfgDevnet depsReject payloadGood =
      ⟨200, { isValid := false, error := some "Transaction validation failed",
              details := none },
        [VStep.checkTx, VStep.checkMeta, VStep.decode, VStep.checkAmount,
          VStep.relaySign]⟩ := by
  constructor
  · have h := C4_relay_error_response cfgMock depsReject payloadGood
      ⟨"/x", "1.5", "Rcp1"⟩ "bad tx" (by decide) rfl (by decide) rfl
    simpa using h
  · have h := C4_relay_error_response cfgDevnet depsReject payloadGood
      ⟨"/x", "1.5", "Rcp1"⟩ "bad tx" (by decide) rfl (by decide) rfl
    simpa using h

/-- C5: for every payload whose transaction field is missing or empty, both
/verify and /settle answer HTTP 400 with the structural error
`"Missing transaction data"` and neither handler reaches its relay call. -/
theorem C5_missing_transaction (cfg : Config) (d : KoraDeps)
    (p : X402PaymentPayload) (h : jsFalsyStr p.transaction = true) :
    verifyHandler cfg d p =
      ⟨400, { isValid := false, error := some "Missing transaction data" },
        [VStep.checkTx]⟩ ∧
    settleHandler cfg d p =
      ⟨400, { success := false, error := some "Missing transaction data" },
        [SStep.checkTx]⟩ ∧
    VStep.relaySign ∉ (verifyHandler cfg d p).trace ∧
    SStep.relaySend ∉ (settleHandler cfg d p).trace := by
  have hv : verifyHandler cfg d p =
      ⟨400, { isValid := false, error := some "Missing transaction data" },
        [VStep.checkTx]⟩ := by
    simp [verifyHandler, h]
  have hs : settleHandler cfg d p =
      ⟨400, { success := false, error := some "Missing transaction data" },
        [SStep.checkTx]⟩ := by
    simp [settleHandler, h]
  refine ⟨hv, hs, ?_, ?_⟩
  · rw [hv]
    decide
  · rw [hs]
    decide

/-- C5 witness: the theorem applied to a payload carrying an empty
transaction string. -/
theorem C5_missing_transaction_witness :
    verifyHandler cfgDevnet depsAccept payloadEmptyTx =
      ⟨400, { isValid := false, error := some "Missing transaction data" },
        [VStep.checkTx]⟩ ∧
    settleHandler cfgDevnet depsAccept payloadEmptyTx =
      ⟨400, { success := false, error := some "Missing transaction data" },
        [SStep.checkTx]⟩ ∧
    VStep.relaySign ∉ (verifyHandler cfgDevnet depsAccept payloadEmptyTx).trace ∧
    SStep.relaySend ∉ (settleHandler cfgDevnet depsAccept payloadEmptyTx).trace :=
  C5_missing_transaction cfgDevnet depsAccept payloadEmptyTx (by decide)

/-- C6: for every /verify request whose relay call succeeds, the response is
the 200 body `{isValid:true}` echoing the payload network, the metadata
amount and the metadata recipient unchanged, with `parsed` true exactly when
the transaction bytes decoded as the legacy or the versioned format. -/
theorem C6_verify_success_echo (cfg : Config) (d : KoraDeps)
    (p : X402PaymentPayload) (md : PaymentMetadata)
    (h1 : jsFalsyStr p.transaction = false) (h2 : p.metadata = some md)
    (h3 : amountRejected md.amount = false)
    (h4 : d.signTransaction (p.transaction.getD "") = Except.ok ()) :
    (verifyHandler cfg d p).status = 200 ∧
    (verifyHandler cfg d p).body =
      { isValid := true, network := some p.network, amount := some md.amount,
        recipient := some md.recipient,
        parsed := some (d.legacyFrom (p.transaction.getD "") ||
                        d.versionedDeserialize (p.transaction.getD "")) } := by
  have hs : sniffParsed d.legacyFrom d.versionedDeserialize
      (p.transaction.getD "") =
      (d.legacyFrom (p.transaction.getD "") ||
       d.versionedDeserialize (p.transaction.getD "")) := by
    cases hL : d.legacyFrom (p.transaction.getD "") <;>
      cases hV : d.versionedDeserialize (p.transaction.getD "") <;>
      simp [sniffParsed, hL, hV]
  constructor <;> simp [verifyHandler, h1, h2, h3, h4, hs]

/-- C6 witness: the theorem applied to a well-formed payload, once with a
transaction the legacy parser recognizes (`parsed = true`) and once with a
transaction neither parser recognizes (`parsed = false`). -/
theorem C6_verify_success_witness :
    (verifyHandler cfgDevnet depsParseAccept payloadGood).body =
      { isValid := true, network := some "solana-devnet",
        amount := some "1.5", recipient := some "Rcp1",
        parsed := some true } ∧
    (verifyHandler cfgDevnet depsAccept payloadGood).body =
      { isValid := true, network := some "solana-devnet",
        amount := some "1.5", recipient := some "Rcp1",
        parsed := some false } := by
  constructor
  · have h := (C6_verify_success_echo cfgDevnet depsParseAccept payloadGood
      ⟨"/x", "1.5", "Rcp1"⟩ (by decide) rfl (by decide) rfl).2
    simpa using h
  · have h := (C6_verify_success_echo cfgDevnet depsAccept payloadGood
      ⟨"/x", "1.5", "Rcp1"⟩ (by decide) rfl (by decide) rfl).2
    simpa using h

/-- C7 counterexample: with the configured network `testnet-solana-devnet`
(where `solana-` occurs but not as a prefix) a successful settlement's
explorer link holds cluster `testnet-devnet` — the first occurrence of
`solana-` removed — which differs from the network name with the fixed
prefix stripped (that would leave `testnet-solana-devnet` unchanged). -/
theorem C7_counterexample :
    (settleHandler cfgOdd depsAccept payloadGood).body.success = true ∧
    (settleHandler cfgOdd depsAccept payloadGood).body.explorerUrl =
      some "https://explorer.solana.com/tx/SIG?cluster=testnet-devnet" ∧
    clusterPerSpec cfgOdd.NETWORK = "testnet-solana-devnet" ∧
    (settleHandler cfgOdd depsAccept payloadGood).body.explorerUrl ≠
      some ("https://explorer.solana.com/tx/SIG?cluster=" ++
        clusterPerSpec cfgOdd.NETWORK) := by
  decide

/-- C7 (amended): for every /settle request with a non-empty transaction, a
relay `signAndSend` failure is surfaced as the 500 response `{success:false}`
carrying the underlying error message, and success yields the 200 response
`{success:true}` carrying the returned transaction identifier and an
explorer-link string whose cluster part is the network name with the first
occurrence of the substring `solana-` removed (equal to stripping the fixed
prefix whenever `solana-` occurs only as a prefix or not at all). -/
theorem C7_settle_relay_outcomes (cfg : Config) (d : KoraDeps)
    (p : X402PaymentPayload) (h : jsFalsyStr p.transaction = false) :
    (∀ msg, d.signAndSendTransaction (p.transaction.getD "") =
        Except.error msg →
      settleHandler cfg d p =
        ⟨500, { success := false, error := some msg },
          [SStep.checkTx, SStep.relaySend]⟩) ∧
    (∀ txid, d.signAndSendTransaction (p.transaction.getD "") =
        Except.ok txid →
      settleHandler cfg d p =
        ⟨200, { success := true, signature := some txid,
                network := some p.network,
                explorerUrl := some ("https://explorer.solana.com/tx/" ++
                  txid ++ "?cluster=" ++
                  jsReplaceFirst cfg.NETWORK "solana-" "") },
          [SStep.checkTx, SStep.relaySend]⟩) := by
  constructor
  · intro msg hm
    simp [settleHandler, h, hm]
  · intro txid ht
    simp [settleHandler, h, ht, explorerUrlOf]

/-- C7 witness: the theorem applied at a succeeding relay (200 confirmation
with explorer link) and at a failing relay (500 with the relay's message). -/
theorem C7_settle_relay_witness :
    settleHandler cfgDevnet depsAccept payloadGood =
      ⟨200, { success := true, signature := some "SIG",
              network := some "solana-devnet",
              explorerUrl :=
                some "https://explorer.solana.com/tx/SIG?cluster=devnet" },
        [SStep.checkTx, SStep.relaySend]⟩ ∧
    settleHandler cfgDevnet depsReject payloadGood =
      ⟨500, { success := false, error := some "send failed" },
        [SStep.checkTx, SStep.relaySend]⟩ := by
  constructor
  · have h := (C7_settle_relay_outcomes cfgDevnet depsAccept payloadGood
      (by decide)).2 "SIG" rfl
    rw [h]
    decide
  · exact (C7_settle_relay_outcomes cfgDevnet depsReject payloadGood
      (by decide)).1 "send failed" rfl

/-- C8: every /supported response carries the configured network, the scheme
`"exact"` and a tokens list of length at least 1; when not in mock mode a
failing fee-payer query degrades `feePayer` to the sentinel
`UnknownPayerAddress` while the response still succeeds; in mock mode the
relay is not queried and `feePayer` comes from configuration (with its
placeholder default). -/
theorem C8_supported_contract (cfg : Config) (d : KoraDeps) :
    (supportedHandler cfg d).status = 200 ∧
    (supportedHandler cfg d).body.network = cfg.NETWORK ∧
    (supportedHandler cfg d).body.paymentScheme = "exact" ∧
    1 ≤ (supportedHandler cfg d).body.tokens.length ∧
    (∀ e, cfg.MOCK_MODE = false → d.getPayerSigner = Except.error e →
      (supportedHandler cfg d).body.feePayer = "UnknownPayerAddress") ∧
    (cfg.MOCK_MODE = true →
      (supportedHandler cfg d).relayQueried = false ∧
      (supportedHandler cfg d).body.feePayer =
        jsOrDefault cfg.KORA_SIGNER_ADDRESS
          "MockPayerAddress11111111111111111111111111") := by
  refine ⟨rfl, rfl, rfl, ?_, ?_, ?_⟩
  · simp [supportedHandler]
  · intro e hm he
    simp [supportedHandler, hm, he]
  · intro hm
    constructor
    · simp [supportedHandler, hm]
    · simp [supportedHandler, hm]

/-- C8 witness: the theorem applied in live mode with a failing fee-payer
query (sentinel used) and in mock mode (no relay query, configured
placeholder used). -/
theorem C8_supported_witness :
    (supportedHandler cfgDevnet depsReject).body.feePayer =
      "UnknownPayerAddress" ∧
    (supportedHandler cfgMock depsReject).relayQueried = false ∧
    (supportedHandler cfgMock depsReject).body.feePayer =
      "MockPayerAddress11111111111111111111111111" ∧
    (supportedHandler cfgDevnet depsAccept).body.network = "solana-devnet" ∧
    1 ≤ (supportedHandler cfgDevnet depsAccept).body.tokens.length := by
  refine ⟨?_, ?_, ?_, ?_, ?_⟩
  · exact (C8_supported_contract cfgDevnet depsReject).2.2.2.2.1 "down" rfl rfl
  · exact ((C8_supported_contract cfgMock depsReject).2.2.2.2.2 rfl).1
  · have h := ((C8_supported_contract cfgMock depsReject).2.2.2.2.2 rfl).2
    simpa using h
  · exact (C8_supported_contract cfgDevnet depsAccept).2.1
  · exact (C8_supported_contract cfgDevnet depsAccept).2.2.2.1

/-- C9: the HTTP status separates structural failures from relay-level
rejections of /verify: a relay error is answered with the default status
200, while each of the three structural failures (missing transaction,
missing metadata, invalid amount) is answered with status 400. -/
theorem C9_status_distinguishes (cfg : Config) (d : KoraDeps)
    (p : X402PaymentPayload) :
    (∀ md msg, jsFalsyStr p.transaction = false → p.metadata = some md →
      amountRejected md.amount = false →
      d.signTransaction (p.transaction.getD "") = Except.error msg →
      (verifyHandler cfg d p).status = 200) ∧
    (jsFalsyStr p.transaction = true →
      (verifyHandler cfg d p).status = 400) ∧
    (jsFalsyStr p.transaction = false → p.metadata = none →
      (verifyHandler cfg d p).status = 400) ∧
    (∀ md, jsFalsyStr p.transaction = false → p.metadata = some md →
      amountRejected md.amount = true →
      (verifyHandler cfg d p).status = 400) := by
  refine ⟨?_, ?_, ?_, ?_⟩
  · intro md msg h1 h2 h3 h4
    simp [verifyHandler, h1, h2, h3, h4]
  · intro h
    simp [verifyHandler, h]
  · intro h1 h2
    simp [verifyHandler, h1, h2]
  · intro md h1 h2 h3
    simp [verifyHandler, h1, h2, h3]

/-- C9 witness: status 200 for a relay rejection and status 400 for each of
the three structural failures, at concrete requests. -/
theorem C9_status_witness :
    (verifyHandler cfgDevnet depsReject payloadGood).status = 200 ∧
    (verifyHandler cfgDevnet depsAccept payloadEmptyTx).status = 400 ∧
    (verifyHandler cfgDevnet depsAccept payloadNoMeta).status = 400 ∧
    (verifyHandler cfgDevnet depsAccept payloadNeg).status = 400 := by
  refine ⟨?_, ?_, ?_, ?_⟩
  · exact (C9_status_distinguishes cfgDevnet depsReject payloadGood).1
      ⟨"/x", "1.5", "Rcp1"⟩ "bad tx" (by decide) rfl (by decide) rfl
  · exact (C9_status_distinguishes cfgDevnet depsAccept payloadEmptyTx).2.1
      (by decide)
  · exact (C9_status_distinguishes cfgDevnet depsAccept payloadNoMeta).2.2.1
      (by decide) rfl
  · exact (C9_status_distinguishes cfgDevnet depsAccept payloadNeg).2.2.2
      ⟨"/x", "-1", "Rcp1"⟩ (by decide) rfl (by decide)

/-- C10: in every successful /settle response the `network` field echoes the
request payload's network string while the explorer link's cluster is
derived from the configured NETWORK value; concretely, settling a payload
declaring `solana-mainnet` against a server configured for `solana-devnet`
returns one response naming `solana-mainnet` in `network` and `devnet` in
`explorerUrl`. -/
theorem C10_settle_network_fields (cfg : Config) (d : KoraDeps)
    (p : X402PaymentPayload) :
    (∀ txid, jsFalsyStr p.transaction = false →
      d.signAndSendTransaction (p.transaction.getD "") = Except.ok txid →
      (settleHandler cfg d p).body.network = some p.network ∧
      (settleHandler cfg d p).body.explorerUrl =
        some (explorerUrlOf cfg txid)) ∧
    ((settleHandler cfgDevnet depsAccept payloadMainnet).body.network =
        some "solana-mainnet" ∧
      (settleHandler cfgDevnet depsAccept payloadMainnet).body.explorerUrl =
        some "https://explorer.solana.com/tx/SIG?cluster=devnet" ∧
      payloadMainnet.network ≠ cfgDevnet.NETWORK) := by
  constructor
  · intro txid h1 h2
    constructor <;> simp [settleHandler, h1, h2]
  · decide

/-- C10 witness: the universal part applied to the concrete mismatching
request. -/
theorem C10_settle_network_witness :
    (settleHandler cfgDevnet depsAccept payloadMainnet).body.network =
      some "solana-mainnet" ∧
    (settleHandler cfgDevnet depsAccept payloadMainnet).body.explorerUrl =
      some (explorerUrlOf cfgDevnet "SIG") := by
  have h := (C10_settle_network_fields cfgDevnet depsAccept payloadMainnet).1
    "SIG" (by decide) rfl
  simpa using h
